import Mathlib

/-!
Verification development for the `infermedica_api.connectors.v2` module:
a shallow embedding of the two connector layers (`APIv2Connector` and
`ModelAPIv2Connector`) over an explicit JSON value type and association-list
dictionaries with CPython `dict` semantics (assignment keeps the position of
an existing key and appends a new key; `update` folds assignments in order).
In-place mutation of caller-supplied dictionaries is embedded by returning
the post-call state of each such dictionary alongside the operation result;
the HTTP transport collaborator is a parameter producing `Except`.
-/

/-- JSON-compatible values, the runtime data the connector layers shuffle. -/
inductive JSON where
  | null
  | b (v : Bool)
  | n (v : Int)
  | s (v : String)
  | arr (elems : List JSON)
  | obj (fields : List (String × JSON))
  deriving Repr

/-- A Python `dict` with string keys, embedded as an association list kept in
insertion order (CPython guarantees insertion order). -/
abbrev StrMap := List (String × JSON)

/-- Lookup of a key, first (and only) binding wins. -/
def dictGet {α : Type} (d : List (String × α)) (k : String) : Option α :=
  match d with
  | [] => none
  | (k₀, v₀) :: rest => if k₀ = k then some v₀ else dictGet rest k

/-- Python dict assignment `d[k] = v`: replace in place when the key exists
(keeping its position), append at the end otherwise. -/
def dictInsert {α : Type} (d : List (String × α)) (k : String) (v : α) :
    List (String × α) :=
  match d with
  | [] => [(k, v)]
  | (k₀, v₀) :: rest =>
      if k₀ = k then (k₀, v) :: rest else (k₀, v₀) :: dictInsert rest k v

/-- Python `d.update(other)`: assign each binding of `other` into `d` in order. -/
def dictUpdate {α : Type} (d other : List (String × α)) : List (String × α) :=
  other.foldl (fun acc kv => dictInsert acc kv.1 kv.2) d

/-- The keys of a dict, in order. -/
def dictKeys {α : Type} (d : List (String × α)) : List String :=
  d.map Prod.fst

/-- Python truthiness of an `Optional[Dict]` value: `None` and `{}` are falsy. -/
def pyTruthyDict (extras : Option StrMap) : Bool :=
  match extras with
  | none => false
  | some x => !x.isEmpty

/-- Embedding of `Optional[int]` arguments that are placed into a payload. -/
def jsonOfOptInt (v : Option Int) : JSON :=
  match v with
  | none => .null
  | some i => .n i

/-- Embedding of `Optional[bool]` arguments that are placed into a payload. -/
def jsonOfOptBool (v : Option Bool) : JSON :=
  match v with
  | none => .null
  | some x => .b x

/-- Field lookup on a JSON value; `none` when it is not an object. -/
def JSON.getField (j : JSON) (k : String) : Option JSON :=
  match j with
  | .obj fields => dictGet fields k
  | _ => none

/-- Error kinds of the system: the locally raised search-filter validation
error, the transport collaborator failures, and the model conversion failure. -/
inductive ApiError where
  | invalidSearchConceptType (value : String)
  | transportError (status : Nat) (body : String)
  | networkError (message : String)
  | malformedResponse (message : String)
  deriving Repr, DecidableEq

/-- The API method a request is addressed to. -/
inductive ApiMethod where
  | search
  | parse
  | suggest
  | red_flags
  | diagnosis
  | rationale
  | explain
  | triage
  | conditions_list
  deriving Repr, DecidableEq

/-- An HTTP-ready invocation of the transport collaborator: the method plus the
body, query parameters and headers handed over by the connector layer. -/
structure Request where
  method : ApiMethod
  data : Option StrMap := none
  params : Option StrMap := none
  headers : Option StrMap := none
  deriving Repr

/-- Modelled from the spec: the transport collaborator
(`BaseAPIConnector.call_api_get`/`call_api_post` in `connectors/common`, not
under src/) performs the HTTP call and returns JSON, failing with a
`TransportError` on non-2xx responses and a `NetworkError` on connection
failure. -/
abbrev Transport := Request → Except ApiError JSON

/-- Modelled from the spec: `SearchConceptType` (`connectors/common`, not under
src/) is a closed enumeration of medical concept categories usable as search
filters. -/
inductive SearchConceptType where
  | symptom
  | risk_factor
  | lab_test
  deriving Repr, DecidableEq

/-- The canonical raw string value of an enumeration member. -/
def SearchConceptType.value : SearchConceptType → String
  | .symptom => "symptom"
  | .risk_factor => "risk_factor"
  | .lab_test => "lab_test"

/-- Modelled from the spec: `SearchConceptType.get_value` (`connectors/common`,
not under src/) normalizes an enum-member-or-raw-string filter to its raw
string value before validation. -/
def SearchConceptType.get_value : SearchConceptType ⊕ String → String
  | .inl member => member.value
  | .inr raw => raw

/-- Modelled from the spec: `SearchConceptType.has_value` (`connectors/common`,
not under src/) tests membership of a raw string in the closed enumeration. -/
def SearchConceptType.has_value (raw : String) : Bool :=
  raw = SearchConceptType.symptom.value
    || raw = SearchConceptType.risk_factor.value
    || raw = SearchConceptType.lab_test.value

/-- Name of the header carrying the interview (session) identifier. -/
def interviewIdHeader : String := "Interview-Id"

/-- Modelled from the spec: `BaseAPIConnector.get_interview_id_headers`
(`connectors/common`, not under src/) maps an optional interview identifier to
a header mapping: empty when no id is supplied, otherwise a single entry
associating the interview-id header name with the given value. -/
def get_interview_id_headers (interview_id : Option String) : StrMap :=
  match interview_id with
  | none => []
  | some i => if i = "" then [] else [(interviewIdHeader, .s i)]

namespace APIv2Connector

/-- Embedding of `APIv2Connector.get_diagnostic_data_dict` (src line 66):
builds `{sex, age, evidence}` and assigns `extras` only when truthy.
Ages flow through unchanged in Python (`int` or a formatted string for
triage/explain), so the age is a `JSON` value here. -/
def get_diagnostic_data_dict (evidence : List JSON) (sex : String) (age : JSON)
    (extras : Option StrMap) : StrMap :=
  let data : StrMap := [("sex", .s sex), ("age", age), ("evidence", .arr evidence)]
  if pyTruthyDict extras then
    dictInsert data "extras" (.obj (extras.getD []))
  else
    data

/-- Result of the `search` request-building stage: the state of the
caller-supplied `params` dict after the call (the source mutates it in place),
and either the transport request built or the local validation error. -/
structure SearchOutcome where
  paramsAfter : StrMap
  outcome : Except ApiError Request
  deriving Repr

/-- Embedding of `APIv2Connector.search` (src lines 96-117) up to the transport
call: pops `params` from kwargs (default `{}`), updates it in place with
`phrase` and `max_results`, conditionally assigns `sex`, then normalizes the
`types` filters and raises `InvalidSearchConceptType` at the first entry whose
normalized value is not in the enumeration, before any `type` key is assigned;
on success the params dict (same object) gains the `type` list and is passed to
the parent search together with the remaining kwargs (which carry `headers`). -/
def search_request (phrase : String) (sex : Option String) (max_results : Option Int)
    (types : Option (List (SearchConceptType ⊕ String)))
    (params? : Option StrMap) (headers? : Option StrMap) : SearchOutcome :=
  let params := dictUpdate (params?.getD [])
      [("phrase", .s phrase), ("max_results", jsonOfOptInt max_results)]
  let params := match sex with
    | some sx => if sx = "" then params else dictInsert params "sex" (.s sx)
    | none => params
  match types with
  | some ts =>
      if ts.isEmpty then
        { paramsAfter := params,
          outcome := .ok { method := .search, params := some params, headers := headers? } }
      else
        let types_as_str_list := ts.map SearchConceptType.get_value
        match types_as_str_list.find? (fun t => !SearchConceptType.has_value t) with
        | some bad =>
            { paramsAfter := params, outcome := .error (.invalidSearchConceptType bad) }
        | none =>
            let params2 := dictInsert params "type" (.arr (types_as_str_list.map .s))
            { paramsAfter := params2,
              outcome := .ok { method := .search, params := some params2, headers := headers? } }
  | none =>
      { paramsAfter := params,
        outcome := .ok { method := .search, params := some params, headers := headers? } }

/-- `APIv2Connector.search` applied to a transport: the validation error, when
raised, short-circuits so the transport is never invoked. Returns the state of
the caller-supplied params dict alongside the result. -/
def search (transport : Transport) (phrase : String) (sex : Option String)
    (max_results : Option Int) (types : Option (List (SearchConceptType ⊕ String)))
    (params? headers? : Option StrMap) : StrMap × Except ApiError JSON :=
  let o := search_request phrase sex max_results types params? headers?
  (o.paramsAfter, o.outcome.bind transport)

/-- Embedding of `APIv2Connector.parse` (src lines 119-148) up to the transport
call: `params` is popped (default `None`) and forwarded untouched, the popped
`headers` dict is updated in place with the interview-id headers, and the
popped `data` dict is updated in place with `text` and `include_tokens`.
Returns (headers state, data state, request). -/
def parse_request (text : String) (include_tokens : Option Bool)
    (interview_id : Option String) (params? headers? data? : Option StrMap) :
    StrMap × StrMap × Request :=
  let headers := dictUpdate (headers?.getD []) (get_interview_id_headers interview_id)
  let data := dictUpdate (data?.getD [])
      [("text", .s text), ("include_tokens", jsonOfOptBool include_tokens)]
  (headers, data,
    { method := .parse, data := some data, params := params?, headers := some headers })

/-- `APIv2Connector.parse` applied to a transport. -/
def parse (transport : Transport) (text : String) (include_tokens : Option Bool)
    (interview_id : Option String) (params? headers? data? : Option StrMap) :
    StrMap × StrMap × Except ApiError JSON :=
  let (headers, data, req) := parse_request text include_tokens interview_id params? headers? data?
  (headers, data, transport req)

/-- Embedding of `APIv2Connector.suggest` (src lines 150-184) up to the
transport call: the popped `params` dict is updated in place with
`max_results`, the popped `headers` dict is updated in place with the
interview-id headers, and the body is the diagnostic data dict. Returns
(params state, headers state, request). -/
def suggest_request (evidence : List JSON) (sex : String) (age : JSON)
    (extras : Option StrMap) (max_results : Option Int) (interview_id : Option String)
    (params? headers? : Option StrMap) : StrMap × StrMap × Request :=
  let params := dictUpdate (params?.getD []) [("max_results", jsonOfOptInt max_results)]
  let headers := dictUpdate (headers?.getD []) (get_interview_id_headers interview_id)
  let data := get_diagnostic_data_dict evidence sex age extras
  (params, headers,
    { method := .suggest, data := some data, params := some params, headers := some headers })

/-- `APIv2Connector.suggest` applied to a transport. -/
def suggest (transport : Transport) (evidence : List JSON) (sex : String) (age : JSON)
    (extras : Option StrMap) (max_results : Option Int) (interview_id : Option String)
    (params? headers? : Option StrMap) : StrMap × StrMap × Except ApiError JSON :=
  let (params, headers, req) :=
    suggest_request evidence sex age extras max_results interview_id params? headers?
  (params, headers, transport req)

/-- Embedding of `APIv2Connector.red_flags` (src lines 186-222) up to the
transport call: identical shape to `suggest`, addressed to the red-flags
method. Returns (params state, headers state, request). -/
def red_flags_request (evidence : List JSON) (sex : String) (age : JSON)
    (extras : Option StrMap) (max_results : Option Int) (interview_id : Option String)
    (params? headers? : Option StrMap) : StrMap × StrMap × Request :=
  let params := dictUpdate (params?.getD []) [("max_results", jsonOfOptInt max_results)]
  let headers := dictUpdate (headers?.getD []) (get_interview_id_headers interview_id)
  let data := get_diagnostic_data_dict evidence sex age extras
  (params, headers,
    { method := .red_flags, data := some data, params := some params, headers := some headers })

/-- `APIv2Connector.red_flags` applied to a transport. -/
def red_flags (transport : Transport) (evidence : List JSON) (sex : String) (age : JSON)
    (extras : Option StrMap) (max_results : Option Int) (interview_id : Option String)
    (params? headers? : Option StrMap) : StrMap × StrMap × Except ApiError JSON :=
  let (params, headers, req) :=
    red_flags_request evidence sex age extras max_results interview_id params? headers?
  (params, headers, transport req)

/-- Embedding of `APIv2Connector.diagnosis` (src lines 224-254) up to the
transport call: the popped `headers` dict is updated in place with the
interview-id headers, the body is the diagnostic data dict, and the remaining
kwargs (carrying `params`) are forwarded untouched. Returns
(headers state, request). -/
def diagnosis_request (evidence : List JSON) (sex : String) (age : JSON)
    (extras : Option StrMap) (interview_id : Option String)
    (params? headers? : Option StrMap) : StrMap × Request :=
  let headers := dictUpdate (headers?.getD []) (get_interview_id_headers interview_id)
  let data := get_diagnostic_data_dict evidence sex age extras
  (headers,
    { method := .diagnosis, data := some data, params := params?, headers := some headers })

/-- `APIv2Connector.diagnosis` applied to a transport. -/
def diagnosis (transport : Transport) (evidence : List JSON) (sex : String) (age : JSON)
    (extras : Option StrMap) (interview_id : Option String)
    (params? headers? : Option StrMap) : StrMap × Except ApiError JSON :=
  let (headers, req) := diagnosis_request evidence sex age extras interview_id params? headers?
  (headers, transport req)

/-- Embedding of `APIv2Connector.rationale` (src lines 256-287): same shape as
`diagnosis`, addressed to the rationale method. -/
def rationale_request (evidence : List JSON) (sex : String) (age : JSON)
    (extras : Option StrMap) (interview_id : Option String)
    (params? headers? : Option StrMap) : StrMap × Request :=
  let headers := dictUpdate (headers?.getD []) (get_interview_id_headers interview_id)
  let data := get_diagnostic_data_dict evidence sex age extras
  (headers,
    { method := .rationale, data := some data, params := params?, headers := some headers })

/-- `APIv2Connector.rationale` applied to a transport. -/
def rationale (transport : Transport) (evidence : List JSON) (sex : String) (age : JSON)
    (extras : Option StrMap) (interview_id : Option String)
    (params? headers? : Option StrMap) : StrMap × Except ApiError JSON :=
  let (headers, req) := rationale_request evidence sex age extras interview_id params? headers?
  (headers, transport req)

/-- Embedding of `APIv2Connector.explain` (src lines 289-322): the diagnostic
data dict is extended with the required `target` field (src line 316) before
the transport call; headers handling is as in `diagnosis`. -/
def explain_request (target_id : String) (evidence : List JSON) (sex : String)
    (age : JSON) (extras : Option StrMap) (interview_id : Option String)
    (params? headers? : Option StrMap) : StrMap × Request :=
  let headers := dictUpdate (headers?.getD []) (get_interview_id_headers interview_id)
  let data := get_diagnostic_data_dict evidence sex age extras
  let data := dictInsert data "target" (.s target_id)
  (headers,
    { method := .explain, data := some data, params := params?, headers := some headers })

/-- `APIv2Connector.explain` applied to a transport. -/
def explain (transport : Transport) (target_id : String) (evidence : List JSON)
    (sex : String) (age : JSON) (extras : Option StrMap) (interview_id : Option String)
    (params? headers? : Option StrMap) : StrMap × Except ApiError JSON :=
  let (headers, req) :=
    explain_request target_id evidence sex age extras interview_id params? headers?
  (headers, transport req)

/-- Embedding of `APIv2Connector.triage` (src lines 324-354): same shape as
`diagnosis`, addressed to the triage method. -/
def triage_request (evidence : List JSON) (sex : String) (age : JSON)
    (extras : Option StrMap) (interview_id : Option String)
    (params? headers? : Option StrMap) : StrMap × Request :=
  let headers := dictUpdate (headers?.getD []) (get_interview_id_headers interview_id)
  let data := get_diagnostic_data_dict evidence sex age extras
  (headers,
    { method := .triage, data := some data, params := params?, headers := some headers })

/-- `APIv2Connector.triage` applied to a transport. -/
def triage (transport : Transport) (evidence : List JSON) (sex : String) (age : JSON)
    (extras : Option StrMap) (interview_id : Option String)
    (params? headers? : Option StrMap) : StrMap × Except ApiError JSON :=
  let (headers, req) := triage_request evidence sex age extras interview_id params? headers?
  (headers, transport req)

/-- Modelled from the spec: `BasicAPICommonMethodsMixin.conditions_list`
(`connectors/common`, not under src/) delegates directly to the transport for
the non-session-bound conditions lookup. -/
def conditions_list (transport : Transport) (params? headers? : Option StrMap) :
    Except ApiError JSON :=
  transport { method := .conditions_list, params := params?, headers := headers? }

end APIv2Connector

/-- Modelled from the spec: `models.Diagnosis` (the `models` package, not under
src/) is the mutable, caller-owned diagnostic request (session) object holding
sex, age, evidence list, extras and the interview identifier, plus the
condition/question state written back by the diagnosis operation. -/
structure DiagnosisSession where
  sex : String
  age : JSON
  evidence : List JSON
  extras : StrMap
  interview_id : Option String
  conditions : JSON
  question : JSON
  deriving Repr

/-- Modelled from the spec: `models.Diagnosis.get_api_request` (not under src/)
extracts the payload-relevant fields (evidence, sex, age, extras) from the
session object; these become the keyword arguments of the mid-level call. -/
def DiagnosisSession.get_api_request (dr : DiagnosisSession) :
    List JSON × String × JSON × Option StrMap :=
  (dr.evidence, dr.sex, dr.age, some dr.extras)

/-- Modelled from the spec: `models.Diagnosis.update_from_api` (not under src/)
writes the JSON response back into the same session object, updating its
internal condition and question state. -/
def DiagnosisSession.update_from_api (dr : DiagnosisSession) (response : JSON) :
    DiagnosisSession :=
  { dr with
      conditions := (response.getField "conditions").getD .null
      question := (response.getField "question").getD .null }

/-- An object store mapping references to session objects: Python object
identity is embedded by threading references (`Nat`) through calls, so that
mutate-in-place and return-the-same-object are observable. -/
abbrev Store := List (Nat × DiagnosisSession)

/-- Lookup of a reference in the store. -/
def storeGet (store : Store) (ref : Nat) : Option DiagnosisSession :=
  match store with
  | [] => none
  | (r, s) :: rest => if r = ref then some s else storeGet rest ref

/-- In-place mutation of the object behind a reference. -/
def storeSet (store : Store) (ref : Nat) (s : DiagnosisSession) : Store :=
  match store with
  | [] => [(ref, s)]
  | (r, s₀) :: rest =>
      if r = ref then (r, s) :: rest else (r, s₀) :: storeSet rest ref s

/-- The references allocated in a store, in order. -/
def storeRefs (store : Store) : List Nat :=
  store.map Prod.fst

/-- A flagged-evidence record of the red-flags response. -/
structure RedFlag where
  id : String
  name : String
  common_name : String
  deriving Repr, DecidableEq

/-- Modelled from the spec: `models.RedFlagList.from_json` (not under src/)
converts a JSON array into the ordered list of flagged-evidence records,
failing with a `MalformedResponseError` when the response is not an array of
records with the required fields. -/
def RedFlagList.from_json (j : JSON) : Except ApiError (List RedFlag) :=
  match j with
  | .arr xs =>
      xs.mapM fun x =>
        match x.getField "id", x.getField "name", x.getField "common_name" with
        | some (.s i), some (.s nm), some (.s cn) =>
            .ok { id := i, name := nm, common_name := cn }
        | _, _, _ => .error (.malformedResponse "red flag record")
  | _ => .error (.malformedResponse "red flags: expected an array")

/-- Modelled from the spec: `models.ParseResults.from_json` (not under src/)
converts the parse response, a detailed list of mentions, failing with a
`MalformedResponseError` otherwise. -/
def ParseResults.from_json (j : JSON) : Except ApiError (List JSON) :=
  match j.getField "mentions" with
  | some (.arr mentions) => .ok mentions
  | _ => .error (.malformedResponse "parse: expected a mentions array")

/-- Modelled from the spec: `models.RationaleResult.from_json` (not under src/)
converts the rationale response, a single structured object explaining a
question selection, failing with a `MalformedResponseError` otherwise. -/
def RationaleResult.from_json (j : JSON) : Except ApiError StrMap :=
  match j with
  | .obj fields => .ok fields
  | _ => .error (.malformedResponse "rationale: expected an object")

/-- Modelled from the spec: `models.ExplainResults.from_json` (not under src/)
converts the explain response into its supporting and conflicting evidence
breakdowns, failing with a `MalformedResponseError` otherwise. -/
def ExplainResults.from_json (j : JSON) : Except ApiError (List JSON × List JSON) :=
  match j.getField "supporting_evidence", j.getField "conflicting_evidence" with
  | some (.arr sup), some (.arr con) => .ok (sup, con)
  | _, _ => .error (.malformedResponse "explain: expected evidence breakdowns")

/-- A condition entity of the medical knowledge base. -/
structure Condition where
  id : String
  name : String
  common_name : String
  deriving Repr, DecidableEq

/-- Modelled from the spec: `models.ConditionList.from_json` (not under src/)
converts a JSON array wholesale into the order-preserving list-of-entity type,
failing with a `MalformedResponseError` otherwise. -/
def ConditionList.from_json (j : JSON) : Except ApiError (List Condition) :=
  match j with
  | .arr xs =>
      xs.mapM fun x =>
        match x.getField "id", x.getField "name", x.getField "common_name" with
        | some (.s i), some (.s nm), some (.s cn) =>
            .ok { id := i, name := nm, common_name := cn }
        | _, _, _ => .error (.malformedResponse "condition record")
  | _ => .error (.malformedResponse "conditions: expected an array")

namespace ModelAPIv2Connector

/-- Embedding of `ModelAPIv2Connector.suggest` (src lines 363-383) up to the
transport call. The source accepts `**kwargs` but the parent call forwards
only `max_results`, `interview_id` and the payload fields extracted from the
session object, so the caller-supplied `headers?` and `params?` never reach
the parent (matching the source, where `**kwargs` is absent from the
`super().suggest(...)` call). -/
def suggest_request (dr : DiagnosisSession) (max_results : Option Int)
    (headers? params? : Option StrMap) : Request :=
  let (evidence, sex, age, extras) := dr.get_api_request
  (APIv2Connector.suggest_request evidence sex age extras max_results
      dr.interview_id none none).2.2

/-- `ModelAPIv2Connector.suggest` applied to a transport; the raw response is
returned without model wrapping (src line 383). -/
def suggest (transport : Transport) (dr : DiagnosisSession) (max_results : Option Int)
    (headers? params? : Option StrMap) : Except ApiError JSON :=
  transport (suggest_request dr max_results headers? params?)

/-- Embedding of `ModelAPIv2Connector.red_flags` (src lines 385-407) up to the
transport call. As in `suggest`, the source accepts `**kwargs` but does not
forward it to the parent call, so `headers?` and `params?` are dropped. -/
def red_flags_request (dr : DiagnosisSession) (max_results : Option Int)
    (headers? params? : Option StrMap) : Request :=
  let (evidence, sex, age, extras) := dr.get_api_request
  (APIv2Connector.red_flags_request evidence sex age extras max_results
      dr.interview_id none none).2.2

/-- `ModelAPIv2Connector.red_flags` applied to a transport; the response is
converted through `RedFlagList.from_json` (src line 407). -/
def red_flags (transport : Transport) (dr : DiagnosisSession) (max_results : Option Int)
    (headers? params? : Option StrMap) : Except ApiError (List RedFlag) :=
  (transport (red_flags_request dr max_results headers? params?)).bind RedFlagList.from_json

/-- Embedding of `ModelAPIv2Connector.parse` (src lines 409-430): delegates to
the mid-level parse (kwargs, carrying `params`, `headers` and `data`, are
forwarded) and converts the response through `ParseResults.from_json`. -/
def parse (transport : Transport) (text : String) (include_tokens : Option Bool)
    (interview_id : Option String) (params? headers? data? : Option StrMap) :
    Except ApiError (List JSON) :=
  (APIv2Connector.parse transport text include_tokens interview_id
      params? headers? data?).2.2.bind ParseResults.from_json

/-- Embedding of `ModelAPIv2Connector.diagnosis` (src lines 432-452): extracts
the payload fields from the session object behind `ref`, delegates to the
mid-level diagnosis (kwargs forwarded), then mutates that same object in place
via `update_from_api` and returns the same reference. -/
def diagnosis (transport : Transport) (store : Store) (ref : Nat)
    (params? headers? : Option StrMap) : Except ApiError (Store × Nat) :=
  match storeGet store ref with
  | none => .error (.malformedResponse "diagnosis: dangling session reference")
  | some dr =>
      let (evidence, sex, age, extras) := dr.get_api_request
      match (APIv2Connector.diagnosis transport evidence sex age extras
          dr.interview_id params? headers?).2 with
      | .error e => .error e
      | .ok response => .ok (storeSet store ref (dr.update_from_api response), ref)

/-- Embedding of `ModelAPIv2Connector.rationale` (src lines 454-474): delegates
to the mid-level rationale (kwargs forwarded) and converts the response
through `RationaleResult.from_json`. -/
def rationale (transport : Transport) (dr : DiagnosisSession)
    (params? headers? : Option StrMap) : Except ApiError StrMap :=
  let (evidence, sex, age, extras) := dr.get_api_request
  (APIv2Connector.rationale transport evidence sex age extras
      dr.interview_id params? headers?).2.bind RationaleResult.from_json

/-- Embedding of `ModelAPIv2Connector.explain` (src lines 476-497): delegates
to the mid-level explain (kwargs forwarded) and converts the response through
`ExplainResults.from_json`. -/
def explain (transport : Transport) (dr : DiagnosisSession) (target_id : String)
    (params? headers? : Option StrMap) : Except ApiError (List JSON × List JSON) :=
  let (evidence, sex, age, extras) := dr.get_api_request
  (APIv2Connector.explain transport target_id evidence sex age extras
      dr.interview_id params? headers?).2.bind ExplainResults.from_json

/-- Embedding of `ModelAPIv2Connector.triage` (src lines 499-518): delegates to
the mid-level triage (kwargs forwarded); the response is returned raw, not
wrapped into a dedicated typed result (src line 518). -/
def triage (transport : Transport) (dr : DiagnosisSession)
    (params? headers? : Option StrMap) : Except ApiError JSON :=
  let (evidence, sex, age, extras) := dr.get_api_request
  (APIv2Connector.triage transport evidence sex age extras
      dr.interview_id params? headers?).2

/-- Embedding of `ModelAPIv2Connector.conditions_list` (src lines 537-548):
delegates directly to the parent (kwargs forwarded) and converts the response
through `ConditionList.from_json`. -/
def conditions_list (transport : Transport) (params? headers? : Option StrMap) :
    Except ApiError (List Condition) :=
  (APIv2Connector.conditions_list transport params? headers?).bind ConditionList.from_json

end ModelAPIv2Connector

/-- A concrete session object used to evaluate the embedding on closed inputs. -/
def sampleSession : DiagnosisSession :=
  { sex := "male"
    age := .n 30
    evidence := [.obj [("id", .s "s_1"), ("choice_id", .s "present")]]
    extras := []
    interview_id := some "iid"
    conditions := .null
    question := .null }

theorem dictGet_insert_self {α : Type} (d : List (String × α)) (k : String) (v : α) :
    dictGet (dictInsert d k v) k = some v := by
  induction d with
  | nil => simp [dictInsert, dictGet]
  | cons p rest ih =>
      obtain ⟨k₀, v₀⟩ := p
      by_cases h : k₀ = k <;> simp [dictInsert, dictGet, h, ih]

theorem dictGet_insert_ne {α : Type} (d : List (String × α)) {k q : String} (v : α)
    (h : q ≠ k) : dictGet (dictInsert d k v) q = dictGet d q := by
  induction d with
  | nil => simp [dictInsert, dictGet, Ne.symm h]
  | cons p rest ih =>
      obtain ⟨k₀, v₀⟩ := p
      by_cases h₀ : k₀ = k
      · subst h₀
        simp [dictInsert, dictGet, Ne.symm h]
      · by_cases h₁ : k₀ = q <;>
          simp [dictInsert, dictGet, h₀, h₁, ih, h, Ne.symm h]

/-- C1: for every evidence list, sex value, age value and optional extras
mapping, the diagnostic payload built by `get_diagnostic_data_dict` contains
exactly the keys sex, age and evidence (with evidence equal to the given
list, possibly empty), plus an extras key equal to the given mapping if and
only if it is supplied and non-empty; an empty or absent extras mapping never
produces an extras key. -/
theorem c1_diagnostic_data_dict_shape (evidence : List JSON) (sex : String)
    (age : JSON) (extras : Option StrMap) :
    dictKeys (APIv2Connector.get_diagnostic_data_dict evidence sex age extras)
      = (if pyTruthyDict extras then ["sex", "age", "evidence", "extras"]
         else ["sex", "age", "evidence"])
    ∧ dictGet (APIv2Connector.get_diagnostic_data_dict evidence sex age extras) "sex"
      = some (.s sex)
    ∧ dictGet (APIv2Connector.get_diagnostic_data_dict evidence sex age extras) "age"
      = some age
    ∧ dictGet (APIv2Connector.get_diagnostic_data_dict evidence sex age extras) "evidence"
      = some (.arr evidence)
    ∧ dictGet (APIv2Connector.get_diagnostic_data_dict evidence sex age extras) "extras"
      = (match extras with
         | some x => if x.isEmpty then none else some (.obj x)
         | none => none) := by
  cases extras with
  | none =>
      simp [APIv2Connector.get_diagnostic_data_dict, pyTruthyDict, dictKeys, dictGet,
        dictInsert]
  | some x =>
      by_cases hx : x.isEmpty <;>
        simp [APIv2Connector.get_diagnostic_data_dict, pyTruthyDict, dictKeys, dictGet,
          dictInsert, hx]

/-- C5: the payload sent by the explain operation is the standard diagnostic
payload (sex, age, evidence, optional extras) extended with a target field
equal to the given target condition id; in particular, the documented example
with one item of evidence, sex male, age 42 and target c_1 yields exactly the
documented body. -/
theorem c5_explain_payload (target_id : String) (evidence : List JSON) (sex : String)
    (age : JSON) (extras : Option StrMap) (interview_id : Option String)
    (params? headers? : Option StrMap) :
    ((APIv2Connector.explain_request target_id evidence sex age extras interview_id
        params? headers?).2.data
      = some (dictInsert (APIv2Connector.get_diagnostic_data_dict evidence sex age extras)
          "target" (.s target_id)))
    ∧ dictGet (dictInsert (APIv2Connector.get_diagnostic_data_dict evidence sex age extras)
        "target" (.s target_id)) "target" = some (.s target_id)
    ∧ dictGet (dictInsert (APIv2Connector.get_diagnostic_data_dict evidence sex age extras)
        "target" (.s target_id)) "sex" = some (.s sex)
    ∧ dictGet (dictInsert (APIv2Connector.get_diagnostic_data_dict evidence sex age extras)
        "target" (.s target_id)) "age" = some age
    ∧ dictGet (dictInsert (APIv2Connector.get_diagnostic_data_dict evidence sex age extras)
        "target" (.s target_id)) "evidence" = some (.arr evidence)
    ∧ dictGet (dictInsert (APIv2Connector.get_diagnostic_data_dict evidence sex age extras)
        "target" (.s target_id)) "extras"
      = (match extras with
         | some x => if x.isEmpty then none else some (.obj x)
         | none => none)
    ∧ (APIv2Connector.explain_request "c_1"
        [.obj [("id", .s "s_1"), ("choice_id", .s "present")]]
        "male" (.n 42) none none none none).2.data
      = some [("sex", .s "male"), ("age", .n 42),
              ("evidence", .arr [.obj [("id", .s "s_1"), ("choice_id", .s "present")]]),
              ("target", .s "c_1")] := by
  refine ⟨rfl, ?_, ?_, ?_, ?_, ?_, rfl⟩ <;>
    cases extras with
    | none =>
        simp [APIv2Connector.get_diagnostic_data_dict, pyTruthyDict, dictGet, dictInsert]
    | some x =>
        by_cases hx : x.isEmpty <;>
          simp [APIv2Connector.get_diagnostic_data_dict, pyTruthyDict, dictGet,
            dictInsert, hx]

/-- C2: a search call whose types list contains at least one entry that does
not resolve to a member of the concept-type enumeration fails with
`InvalidSearchConceptType` carrying the first invalid (normalized) value; no
transport call is made (the result is the same error for every transport) and
no params object is returned. -/
theorem c2_search_invalid_concept_type (phrase : String) (sex : Option String)
    (max_results : Option Int) (ts : List (SearchConceptType ⊕ String)) (bad : String)
    (params? headers? : Option StrMap)
    (hbad : (ts.map SearchConceptType.get_value).find?
        (fun t => !SearchConceptType.has_value t) = some bad) :
    ((APIv2Connector.search_request phrase sex max_results (some ts)
        params? headers?).outcome
      = .error (.invalidSearchConceptType bad))
    ∧ ∀ transport : Transport,
        (APIv2Connector.search transport phrase sex max_results (some ts)
            params? headers?).2
          = .error (.invalidSearchConceptType bad) := by
  have hne : ts.isEmpty = false := by
    cases ts with
    | nil => simp [List.find?] at hbad
    | cons a l => rfl
  constructor
  · simp [APIv2Connector.search_request, hne, hbad]
  · intro transport
    simp [APIv2Connector.search, APIv2Connector.search_request, hne, hbad, Except.bind]

/-- Witness for C2 at a concrete invalid filter value. -/
theorem c2_search_invalid_concept_type_witness :
    ((APIv2Connector.search_request "headache" none (some 8)
        (some [Sum.inl SearchConceptType.symptom, Sum.inr "bogus"]) none none).outcome
      = .error (.invalidSearchConceptType "bogus")) :=
  (c2_search_invalid_concept_type "headache" none (some 8)
    [Sum.inl SearchConceptType.symptom, Sum.inr "bogus"] "bogus" none none rfl).1

/-- C3: for every session-bound operation of the mid-level connector (suggest,
red_flags, diagnosis, rationale, explain, triage, parse) with a non-empty
interview id, the headers passed to the transport are the caller-supplied
headers with the interview-id entry added: the merged mapping carries the
session-derived value under the interview-id key (taking precedence over any
caller value there) and preserves every caller entry under any other key. -/
theorem c3_interview_header_merged (h : StrMap) (i : String) (hi : i ≠ "")
    (evidence : List JSON) (sex : String) (age : JSON) (extras : Option StrMap)
    (max_results : Option Int) (params? data? : Option StrMap)
    (text : String) (include_tokens : Option Bool) (target_id : String) :
    (dictGet (dictUpdate h (get_interview_id_headers (some i))) interviewIdHeader
      = some (.s i))
    ∧ (∀ k : String, k ≠ interviewIdHeader →
        dictGet (dictUpdate h (get_interview_id_headers (some i))) k = dictGet h k)
    ∧ ((APIv2Connector.suggest_request evidence sex age extras max_results (some i)
        params? (some h)).2.2.headers
      = some (dictUpdate h (get_interview_id_headers (some i))))
    ∧ ((APIv2Connector.red_flags_request evidence sex age extras max_results (some i)
        params? (some h)).2.2.headers
      = some (dictUpdate h (get_interview_id_headers (some i))))
    ∧ ((APIv2Connector.diagnosis_request evidence sex age extras (some i)
        params? (some h)).2.headers
      = some (dictUpdate h (get_interview_id_headers (some i))))
    ∧ ((APIv2Connector.rationale_request evidence sex age extras (some i)
        params? (some h)).2.headers
      = some (dictUpdate h (get_interview_id_headers (some i))))
    ∧ ((APIv2Connector.explain_request target_id evidence sex age extras (some i)
        params? (some h)).2.headers
      = some (dictUpdate h (get_interview_id_headers (some i))))
    ∧ ((APIv2Connector.triage_request evidence sex age extras (some i)
        params? (some h)).2.headers
      = some (dictUpdate h (get_interview_id_headers (some i))))
    ∧ ((APIv2Connector.parse_request text include_tokens (some i)
        params? (some h) data?).2.2.headers
      = some (dictUpdate h (get_interview_id_headers (some i)))) := by
  refine ⟨?_, ?_, rfl, rfl, rfl, rfl, rfl, rfl, rfl⟩
  · simp [get_interview_id_headers, hi, dictUpdate, dictGet_insert_self]
  · intro k hk
    simp [get_interview_id_headers, hi, dictUpdate, dictGet_insert_ne _ _ hk]

/-- Witness for C3 at a concrete interview id and caller header mapping. -/
theorem c3_interview_header_merged_witness :
    (dictGet (dictUpdate [("X-Custom", JSON.s "v"), (interviewIdHeader, JSON.s "stale")]
        (get_interview_id_headers (some "abc123"))) interviewIdHeader
      = some (.s "abc123"))
    ∧ dictGet (dictUpdate [("X-Custom", JSON.s "v"), (interviewIdHeader, JSON.s "stale")]
        (get_interview_id_headers (some "abc123"))) "X-Custom"
      = some (.s "v") := by
  have base := c3_interview_header_merged
    [("X-Custom", JSON.s "v"), (interviewIdHeader, JSON.s "stale")] "abc123"
    (by decide) [] "male" (.n 30) none (some 8) none none "text" (some false) "c_1"
  exact ⟨base.1, (base.2.1 "X-Custom" (by decide)).trans rfl⟩

/-- C10: for every session-bound operation of the mid-level connector, a
headers mapping supplied by the caller is mutated in place: whatever the
transport does (including failing), after the call the caller-owned mapping
contains the interview-id entry whenever a non-empty interview id was given.
The mutated-mapping component returned by each embedded operation is the
post-call state of the caller-supplied dict, and it is independent of the
transport outcome. -/
theorem c10_caller_headers_mutated_in_place (transport : Transport) (h : StrMap)
    (i : String) (hi : i ≠ "")
    (evidence : List JSON) (sex : String) (age : JSON) (extras : Option StrMap)
    (max_results : Option Int) (params? data? : Option StrMap)
    (text : String) (include_tokens : Option Bool) (target_id : String) :
    (dictGet (APIv2Connector.suggest transport evidence sex age extras max_results
        (some i) params? (some h)).2.1 interviewIdHeader = some (.s i))
    ∧ (dictGet (APIv2Connector.red_flags transport evidence sex age extras max_results
        (some i) params? (some h)).2.1 interviewIdHeader = some (.s i))
    ∧ (dictGet (APIv2Connector.diagnosis transport evidence sex age extras
        (some i) params? (some h)).1 interviewIdHeader = some (.s i))
    ∧ (dictGet (APIv2Connector.rationale transport evidence sex age extras
        (some i) params? (some h)).1 interviewIdHeader = some (.s i))
    ∧ (dictGet (APIv2Connector.explain transport target_id evidence sex age extras
        (some i) params? (some h)).1 interviewIdHeader = some (.s i))
    ∧ (dictGet (APIv2Connector.triage transport evidence sex age extras
        (some i) params? (some h)).1 interviewIdHeader = some (.s i))
    ∧ (dictGet (APIv2Connector.parse transport text include_tokens
        (some i) params? (some h) data?).1 interviewIdHeader = some (.s i)) := by
  refine ⟨?_, ?_, ?_, ?_, ?_, ?_, ?_⟩ <;>
    simp [APIv2Connector.suggest, APIv2Connector.suggest_request,
      APIv2Connector.red_flags, APIv2Connector.red_flags_request,
      APIv2Connector.diagnosis, APIv2Connector.diagnosis_request,
      APIv2Connector.rationale, APIv2Connector.rationale_request,
      APIv2Connector.explain, APIv2Connector.explain_request,
      APIv2Connector.triage, APIv2Connector.triage_request,
      APIv2Connector.parse, APIv2Connector.parse_request,
      get_interview_id_headers, hi, dictUpdate, dictGet_insert_self]

/-- Witness for C10: a failing transport still leaves the interview-id entry
in the caller-supplied headers mapping. -/
theorem c10_caller_headers_mutated_in_place_witness :
    dictGet (APIv2Connector.suggest (fun _ => .error (.networkError "down"))
        [] "male" (.n 30) none (some 8) (some "abc123") none
        (some [("X-Custom", JSON.s "v")])).2.1 interviewIdHeader
      = some (.s "abc123") :=
  (c10_caller_headers_mutated_in_place (fun _ => .error (.networkError "down"))
    [("X-Custom", JSON.s "v")] "abc123" (by decide) [] "male" (.n 30) none (some 8)
    none none "text" (some false) "c_1").1

/-- C9: when search raises `InvalidSearchConceptType`, the caller-supplied
params mapping has already been mutated in place before the error is raised:
it then contains the phrase and max_results entries (and sex when a non-empty
sex was supplied), while no type key has been added to it on the error path
(its type entry, if any, is whatever the caller put there). -/
theorem c9_search_params_mutated_on_error (phrase : String) (sex : Option String)
    (max_results : Option Int) (ts : List (SearchConceptType ⊕ String)) (bad : String)
    (callerParams : StrMap) (headers? : Option StrMap)
    (hbad : (ts.map SearchConceptType.get_value).find?
        (fun t => !SearchConceptType.has_value t) = some bad) :
    ((APIv2Connector.search_request phrase sex max_results (some ts)
        (some callerParams) headers?).outcome
      = .error (.invalidSearchConceptType bad))
    ∧ dictGet (APIv2Connector.search_request phrase sex max_results (some ts)
        (some callerParams) headers?).paramsAfter "phrase" = some (.s phrase)
    ∧ dictGet (APIv2Connector.search_request phrase sex max_results (some ts)
        (some callerParams) headers?).paramsAfter "max_results"
      = some (jsonOfOptInt max_results)
    ∧ (∀ sx : String, sex = some sx → sx ≠ "" →
        dictGet (APIv2Connector.search_request phrase sex max_results (some ts)
          (some callerParams) headers?).paramsAfter "sex" = some (.s sx))
    ∧ dictGet (APIv2Connector.search_request phrase sex max_results (some ts)
        (some callerParams) headers?).paramsAfter "type"
      = dictGet callerParams "type" := by
  have hne : ts.isEmpty = false := by
    cases ts with
    | nil => simp [List.find?] at hbad
    | cons a l => rfl
  refine ⟨?_, ?_, ?_, ?_, ?_⟩ <;>
    cases sex with
    | none =>
        simp [APIv2Connector.search_request, hne, hbad, dictUpdate,
          dictGet_insert_self, dictGet_insert_ne]
    | some sx =>
        by_cases hsx : sx = "" <;>
          simp [APIv2Connector.search_request, hne, hbad, hsx, dictUpdate,
            dictGet_insert_self, dictGet_insert_ne]

/-- Witness for C9: concrete caller params survive mutated, without a type
key, when the filter list contains an invalid entry. -/
theorem c9_search_params_mutated_on_error_witness :
    ((APIv2Connector.search_request "headache" (some "male") (some 8)
        (some [Sum.inr "bogus"]) (some [("page", JSON.n 2)]) none).outcome
      = .error (.invalidSearchConceptType "bogus"))
    ∧ dictGet (APIv2Connector.search_request "headache" (some "male") (some 8)
        (some [Sum.inr "bogus"]) (some [("page", JSON.n 2)]) none).paramsAfter "sex"
      = some (.s "male")
    ∧ dictGet (APIv2Connector.search_request "headache" (some "male") (some 8)
        (some [Sum.inr "bogus"]) (some [("page", JSON.n 2)]) none).paramsAfter "type"
      = none := by
  have base := c9_search_params_mutated_on_error "headache" (some "male") (some 8)
    [Sum.inr "bogus"] "bogus" [("page", JSON.n 2)] none rfl
  exact ⟨base.1, base.2.2.2.1 "male" rfl (by decide), base.2.2.2.2.trans rfl⟩

theorem storeGet_storeSet_self (store : Store) (ref : Nat) (s : DiagnosisSession) :
    storeGet (storeSet store ref s) ref = some s := by
  induction store with
  | nil => simp [storeSet, storeGet]
  | cons p rest ih =>
      obtain ⟨r, s₀⟩ := p
      by_cases h : r = ref <;> simp [storeSet, storeGet, h, ih]

theorem storeRefs_storeSet_of_get (store : Store) (ref : Nat)
    (s dr : DiagnosisSession) (h : storeGet store ref = some dr) :
    storeRefs (storeSet store ref s) = storeRefs store := by
  induction store with
  | nil => simp [storeGet] at h
  | cons p rest ih =>
      obtain ⟨r, s₀⟩ := p
      by_cases hr : r = ref
      · simp [storeSet, storeRefs, hr]
      · simp only [storeGet, hr, if_false] at h
        have hrec := ih h
        simp only [storeRefs] at hrec
        simp [storeSet, storeRefs, hr, hrec]

/-- C4: the high-level diagnosis operation, run on a session object behind a
reference with a transport returning a fixed JSON response, returns the very
same reference after mutating the object behind it in place: the store keeps
exactly the same references (no fresh object is allocated), and the object
behind the reference now carries the condition/question state of the
response. -/
theorem c4_diagnosis_returns_same_mutated_session (store : Store) (ref : Nat)
    (dr : DiagnosisSession) (response : JSON) (params? headers? : Option StrMap)
    (href : storeGet store ref = some dr) :
    (ModelAPIv2Connector.diagnosis (fun _ => .ok response) store ref params? headers?
      = .ok (storeSet store ref (dr.update_from_api response), ref))
    ∧ storeGet (storeSet store ref (dr.update_from_api response)) ref
      = some (dr.update_from_api response)
    ∧ (dr.update_from_api response).conditions
      = (response.getField "conditions").getD .null
    ∧ (dr.update_from_api response).question
      = (response.getField "question").getD .null
    ∧ storeRefs (storeSet store ref (dr.update_from_api response)) = storeRefs store := by
  refine ⟨?_, storeGet_storeSet_self _ _ _, rfl, rfl,
    storeRefs_storeSet_of_get _ _ _ _ href⟩
  simp [ModelAPIv2Connector.diagnosis, href, APIv2Connector.diagnosis,
    APIv2Connector.diagnosis_request, DiagnosisSession.get_api_request]

/-- Witness for C4 on a concrete store, session and response. -/
theorem c4_diagnosis_returns_same_mutated_session_witness :
    ModelAPIv2Connector.diagnosis
        (fun _ => .ok (.obj [("conditions", .arr [.obj [("id", .s "c_1")]]),
                             ("question", .s "q")]))
        [(0, sampleSession)] 0 none none
      = .ok ([(0, { sampleSession with
                      conditions := .arr [.obj [("id", .s "c_1")]]
                      question := .s "q" })], 0) :=
  ((c4_diagnosis_returns_same_mutated_session [(0, sampleSession)] 0 sampleSession
    (.obj [("conditions", .arr [.obj [("id", .s "c_1")]]), ("question", .s "q")])
    none none rfl).1).trans rfl

/-- C6: contrary to the claim (and to the docstrings of the source methods),
the model-aware layer silently discards caller-supplied keyword arguments for
suggest and red_flags: the parent call omits the kwargs, so caller headers and
params never reach the transport — the transport request carries only the
interview-id header and the operation-derived max_results, and the request is
identical whatever kwargs the caller supplies. -/
theorem c6_model_suggest_red_flags_discard_kwargs :
    ((ModelAPIv2Connector.suggest_request sampleSession (some 8)
        (some [("X-Custom", JSON.s "v")]) (some [("page", JSON.n 2)])).headers
      = some [(interviewIdHeader, JSON.s "iid")])
    ∧ dictGet [(interviewIdHeader, JSON.s "iid")] "X-Custom" = none
    ∧ ((ModelAPIv2Connector.suggest_request sampleSession (some 8)
        (some [("X-Custom", JSON.s "v")]) (some [("page", JSON.n 2)])).params
      = some [("max_results", JSON.n 8)])
    ∧ dictGet [("max_results", JSON.n 8)] "page" = none
    ∧ ((ModelAPIv2Connector.red_flags_request sampleSession (some 8)
        (some [("X-Custom", JSON.s "v")]) (some [("page", JSON.n 2)])).headers
      = some [(interviewIdHeader, JSON.s "iid")])
    ∧ (∀ h? p? : Option StrMap,
        ModelAPIv2Connector.suggest_request sampleSession (some 8) h? p?
          = ModelAPIv2Connector.suggest_request sampleSession (some 8) none none)
    ∧ (∀ h? p? : Option StrMap,
        ModelAPIv2Connector.red_flags_request sampleSession (some 8) h? p?
          = ModelAPIv2Connector.red_flags_request sampleSession (some 8) none none) :=
  ⟨rfl, rfl, rfl, rfl, rfl, fun _ _ => rfl, fun _ _ => rfl⟩

/-- C7: every embedded operation of both connector layers passes errors
through unchanged. A transport failing with any error makes each operation
return exactly that error (never caught, wrapped or replaced by a fallback),
and when the conversion step rejects a delivered response, that conversion
error is returned unchanged. -/
theorem c7_errors_propagate_unchanged (e : ApiError) (phrase : String)
    (sex : Option String) (max_results : Option Int)
    (evidence : List JSON) (sexv : String) (age : JSON) (extras : Option StrMap)
    (interview_id : Option String) (params? headers? data? : Option StrMap)
    (text : String) (include_tokens : Option Bool) (target_id : String)
    (dr : DiagnosisSession) :
    ((APIv2Connector.search (fun _ => .error e) phrase sex max_results none
        params? headers?).2 = .error e)
    ∧ ((APIv2Connector.parse (fun _ => .error e) text include_tokens interview_id
        params? headers? data?).2.2 = .error e)
    ∧ ((APIv2Connector.suggest (fun _ => .error e) evidence sexv age extras
        max_results interview_id params? headers?).2.2 = .error e)
    ∧ ((APIv2Connector.red_flags (fun _ => .error e) evidence sexv age extras
        max_results interview_id params? headers?).2.2 = .error e)
    ∧ ((APIv2Connector.diagnosis (fun _ => .error e) evidence sexv age extras
        interview_id params? headers?).2 = .error e)
    ∧ ((APIv2Connector.rationale (fun _ => .error e) evidence sexv age extras
        interview_id params? headers?).2 = .error e)
    ∧ ((APIv2Connector.explain (fun _ => .error e) target_id evidence sexv age extras
        interview_id params? headers?).2 = .error e)
    ∧ ((APIv2Connector.triage (fun _ => .error e) evidence sexv age extras
        interview_id params? headers?).2 = .error e)
    ∧ (APIv2Connector.conditions_list (fun _ => .error e) params? headers? = .error e)
    ∧ (ModelAPIv2Connector.suggest (fun _ => .error e) dr max_results headers? params?
        = .error e)
    ∧ (ModelAPIv2Connector.red_flags (fun _ => .error e) dr max_results headers? params?
        = .error e)
    ∧ (ModelAPIv2Connector.parse (fun _ => .error e) text include_tokens interview_id
        params? headers? data? = .error e)
    ∧ (ModelAPIv2Connector.diagnosis (fun _ => .error e) [(0, dr)] 0 params? headers?
        = .error e)
    ∧ (ModelAPIv2Connector.rationale (fun _ => .error e) dr params? headers? = .error e)
    ∧ (ModelAPIv2Connector.explain (fun _ => .error e) dr target_id params? headers?
        = .error e)
    ∧ (ModelAPIv2Connector.triage (fun _ => .error e) dr params? headers? = .error e)
    ∧ (ModelAPIv2Connector.conditions_list (fun _ => .error e) params? headers?
        = .error e)
    ∧ (ModelAPIv2Connector.red_flags (fun _ => .ok (.obj [])) dr max_results
        headers? params? = .error (.malformedResponse "red flags: expected an array"))
    ∧ (ModelAPIv2Connector.rationale (fun _ => .ok (.arr [])) dr params? headers?
        = .error (.malformedResponse "rationale: expected an object"))
    ∧ (ModelAPIv2Connector.conditions_list (fun _ => .ok (.s "oops")) params? headers?
        = .error (.malformedResponse "conditions: expected an array")) :=
  ⟨rfl, rfl, rfl, rfl, rfl, rfl, rfl, rfl, rfl, rfl,
   rfl, rfl, rfl, rfl, rfl, rfl, rfl, rfl, rfl, rfl⟩

/-- C8 counterexample: a caller-supplied phrase or max_results entry in params
(and text entry in data) does not survive the merge — the operation-derived
value overwrites it. -/
theorem c8_counterexample_caller_value_does_not_survive :
    (dictGet (APIv2Connector.search_request "op_phrase" none (some 8) none
        (some [("phrase", JSON.s "caller_phrase"), ("max_results", JSON.n 99)])
        none).paramsAfter "phrase"
      = some (.s "op_phrase"))
    ∧ (dictGet (APIv2Connector.search_request "op_phrase" none (some 8) none
        (some [("phrase", JSON.s "caller_phrase"), ("max_results", JSON.n 99)])
        none).paramsAfter "phrase"
      ≠ some (.s "caller_phrase"))
    ∧ (dictGet (APIv2Connector.search_request "op_phrase" none (some 8) none
        (some [("phrase", JSON.s "caller_phrase"), ("max_results", JSON.n 99)])
        none).paramsAfter "max_results"
      = some (.n 8))
    ∧ (dictGet (APIv2Connector.search_request "op_phrase" none (some 8) none
        (some [("phrase", JSON.s "caller_phrase"), ("max_results", JSON.n 99)])
        none).paramsAfter "max_results"
      ≠ some (.n 99))
    ∧ (dictGet (APIv2Connector.parse_request "op_text" (some false) none none none
        (some [("text", JSON.s "caller_text")])).2.1 "text"
      = some (.s "op_text"))
    ∧ (dictGet (APIv2Connector.parse_request "op_text" (some false) none none none
        (some [("text", JSON.s "caller_text")])).2.1 "text"
      ≠ some (.s "caller_text")) := by
  refine ⟨rfl, ?_, rfl, ?_, rfl, ?_⟩ <;>
    · intro hcon
      injection hcon with h₁
      injection h₁ with h₂
      exact absurd h₂ (by decide)

/-- C8 amended: on a key collision between a caller-supplied entry and an
operation-derived entry, the operation-derived value wins everywhere — for
the interview-id header as the claim says, but equally for phrase and
max_results in params and text and include_tokens in data; caller entries
under keys the operation does not set survive unchanged. -/
theorem c8_amended_operation_values_win (phrase : String) (max_results : Option Int)
    (callerParams : StrMap) (headers? params? : Option StrMap)
    (k : String) (hk1 : k ≠ "phrase") (hk2 : k ≠ "max_results")
    (text : String) (include_tokens : Option Bool) (callerData : StrMap)
    (kd : String) (hd1 : kd ≠ "text") (hd2 : kd ≠ "include_tokens")
    (callerHeaders : StrMap) (i : String) (hi : i ≠ "")
    (kh : String) (hkh : kh ≠ interviewIdHeader)
    (evidence : List JSON) (sexv : String) (age : JSON) (extras : Option StrMap)
    (interview_id : Option String) :
    (dictGet (APIv2Connector.search_request phrase none max_results none
        (some callerParams) headers?).paramsAfter "phrase" = some (.s phrase))
    ∧ (dictGet (APIv2Connector.search_request phrase none max_results none
        (some callerParams) headers?).paramsAfter "max_results"
      = some (jsonOfOptInt max_results))
    ∧ (dictGet (APIv2Connector.search_request phrase none max_results none
        (some callerParams) headers?).paramsAfter k = dictGet callerParams k)
    ∧ (dictGet (APIv2Connector.parse_request text include_tokens interview_id
        params? none (some callerData)).2.1 "text" = some (.s text))
    ∧ (dictGet (APIv2Connector.parse_request text include_tokens interview_id
        params? none (some callerData)).2.1 "include_tokens"
      = some (jsonOfOptBool include_tokens))
    ∧ (dictGet (APIv2Connector.parse_request text include_tokens interview_id
        params? none (some callerData)).2.1 kd = dictGet callerData kd)
    ∧ (dictGet (APIv2Connector.diagnosis_request evidence sexv age extras (some i)
        params? (some callerHeaders)).1 interviewIdHeader = some (.s i))
    ∧ (dictGet (APIv2Connector.diagnosis_request evidence sexv age extras (some i)
        params? (some callerHeaders)).1 kh = dictGet callerHeaders kh) := by
  have hih : get_interview_id_headers (some i) = [(interviewIdHeader, .s i)] := by
    simp [get_interview_id_headers, hi]
  refine ⟨?_, ?_, ?_, ?_, ?_, ?_, ?_, ?_⟩
  · show dictGet (dictInsert (dictInsert callerParams "phrase" (.s phrase))
        "max_results" (jsonOfOptInt max_results)) "phrase" = some (.s phrase)
    rw [dictGet_insert_ne _ _ (by decide), dictGet_insert_self]
  · show dictGet (dictInsert (dictInsert callerParams "phrase" (.s phrase))
        "max_results" (jsonOfOptInt max_results)) "max_results"
      = some (jsonOfOptInt max_results)
    rw [dictGet_insert_self]
  · show dictGet (dictInsert (dictInsert callerParams "phrase" (.s phrase))
        "max_results" (jsonOfOptInt max_results)) k = dictGet callerParams k
    rw [dictGet_insert_ne _ _ hk2, dictGet_insert_ne _ _ hk1]
  · show dictGet (dictInsert (dictInsert callerData "text" (.s text))
        "include_tokens" (jsonOfOptBool include_tokens)) "text" = some (.s text)
    rw [dictGet_insert_ne _ _ (by decide), dictGet_insert_self]
  · show dictGet (dictInsert (dictInsert callerData "text" (.s text))
        "include_tokens" (jsonOfOptBool include_tokens)) "include_tokens"
      = some (jsonOfOptBool include_tokens)
    rw [dictGet_insert_self]
  · show dictGet (dictInsert (dictInsert callerData "text" (.s text))
        "include_tokens" (jsonOfOptBool include_tokens)) kd = dictGet callerData kd
    rw [dictGet_insert_ne _ _ hd2, dictGet_insert_ne _ _ hd1]
  · show dictGet (dictUpdate callerHeaders (get_interview_id_headers (some i)))
        interviewIdHeader = some (.s i)
    rw [hih]
    exact dictGet_insert_self callerHeaders interviewIdHeader (.s i)
  · show dictGet (dictUpdate callerHeaders (get_interview_id_headers (some i))) kh
      = dictGet callerHeaders kh
    rw [hih]
    exact dictGet_insert_ne callerHeaders _ hkh

/-- Witness for the amended C8 at concrete colliding and unrelated keys. -/
theorem c8_amended_operation_values_win_witness :
    (dictGet (APIv2Connector.search_request "op_phrase" none (some 8) none
        (some [("phrase", JSON.s "caller_phrase"), ("page", JSON.n 2)])
        none).paramsAfter "phrase" = some (.s "op_phrase"))
    ∧ (dictGet (APIv2Connector.search_request "op_phrase" none (some 8) none
        (some [("phrase", JSON.s "caller_phrase"), ("page", JSON.n 2)])
        none).paramsAfter "page" = dictGet [("phrase", JSON.s "caller_phrase"),
          ("page", JSON.n 2)] "page")
    ∧ (dictGet (APIv2Connector.diagnosis_request [] "male" (.n 30) none (some "abc123")
        none (some [(interviewIdHeader, JSON.s "stale"), ("X-Custom", JSON.s "v")])).1
        interviewIdHeader = some (.s "abc123")) := by
  have base := c8_amended_operation_values_win "op_phrase" (some 8)
    [("phrase", JSON.s "caller_phrase"), ("page", JSON.n 2)] none none
    "page" (by decide) (by decide)
    "op_text" (some false) [] "other" (by decide) (by decide)
    [(interviewIdHeader, JSON.s "stale"), ("X-Custom", JSON.s "v")] "abc123" (by decide)
    "X-Custom" (by decide) [] "male" (.n 30) none none
  exact ⟨base.1, base.2.2.1, base.2.2.2.2.2.2.1⟩
